import Mathlib

/-!
Shallow embedding of `pytext/data/tensorizers.py`: the per-field encoder
(`Tensorizer`) family, the token/span-label alignment algorithm, and the
corpus-streaming driver `initialize_tensorizers`.

External collaborators (the tokenizer, `Token`, `Slot`, `VocabBuilder`,
`Vocab` and the special tokens, all imported by the source file but not part
of it) are modelled from the spec where noted.  Python floats are modelled as
exact rationals; Python exceptions are modelled with `Except`.
-/

/-- Modelled from the spec (§3 Data Model): a token is
`(value, start, end)` with half-open character offsets; synthetic boundary
tokens use `start = end = -1`. -/
structure Token where
  value : String
  start : Int
  «end» : Int
deriving DecidableEq

/-- Modelled from the spec (§3 Data Model): a span label
(`pytext.utils.data.Slot`) is `(label, start, end)`, a labeled character
interval over the raw text. -/
structure Slot where
  label : String
  start : Int
  «end» : Int
deriving DecidableEq

/-- Modelled from the spec: the reserved padding symbol. -/
def PAD : String := "__PAD__"

/-- Modelled from the spec: the reserved unknown symbol. -/
def UNK : String := "__UNKNOWN__"

/-- Modelled from the spec: the reserved beginning-of-sentence symbol. -/
def BOS : String := "__BEGIN_OF_SENTENCE__"

/-- Modelled from the spec: the reserved end-of-sentence symbol. -/
def EOS : String := "__END_OF_SENTENCE__"

/-- Source line 382: `NO_LABEL = SpecialToken("NO_LABEL")`, the "no label"
sentinel of the word-label encoder. -/
def NO_LABEL : String := "NO_LABEL"

/-- Modelled from the spec (§2, §6): a frozen vocabulary is an immutable
symbol-to-index map; symbols are listed in index order. -/
structure Vocab where
  symbols : List String
deriving DecidableEq

/-- Index of the first occurrence of a symbol in a symbol list. -/
def vocabIndexOf (l : List String) (s : String) : Option Nat :=
  match l with
  | [] => none
  | x :: xs => if x = s then some 0 else (vocabIndexOf xs s).map (· + 1)

/-- Modelled from the spec (§6 Vocabulary contract): looking up one symbol
returns its index; an unknown symbol resolves to the UNK index if UNK is
reserved, otherwise surfaces an explicit failure naming the symbol. -/
def Vocab.lookupOne (v : Vocab) (s : String) : Except String Nat :=
  match vocabIndexOf v.symbols s with
  | some i => .ok i
  | none =>
    match vocabIndexOf v.symbols UNK with
    | some u => .ok u
    | none => .error s

/-- Modelled from the spec (§6): `lookup_all` over a list of symbols maps
each symbol through the single-symbol lookup, failing on the first unknown
symbol when UNK is not reserved.  (pytext's `lookup_all` recurses on
lists/tuples and treats any other value, such as a plain string, as one
symbol: that base case is `Vocab.lookupOne`.) -/
def Vocab.lookupAll (v : Vocab) : List String → Except String (List Nat)
  | [] => .ok []
  | s :: ss =>
    match v.lookupOne s with
    | .error e => .error e
    | .ok i =>
      match v.lookupAll ss with
      | .error e => .error e
      | .ok is => .ok (i :: is)

/-- Modelled from the spec (§2, §6): a vocabulary builder accumulates unique
symbols in encounter order and optionally reserves PAD / UNK slots, placed
before the accumulated symbols when the vocabulary is frozen. -/
structure VocabBuilder where
  usePad : Bool := true
  useUnk : Bool := true
  symbols : List String := []
deriving DecidableEq

/-- Modelled from the spec: `VocabBuilder.add` records a symbol once, in
encounter order. -/
def VocabBuilder.add (b : VocabBuilder) (s : String) : VocabBuilder :=
  if s ∈ b.symbols then b else { b with symbols := b.symbols ++ [s] }

/-- Modelled from the spec: `VocabBuilder.add_all` adds each symbol in
order. -/
def VocabBuilder.addAll (b : VocabBuilder) (ss : List String) : VocabBuilder :=
  ss.foldl VocabBuilder.add b

/-- Modelled from the spec: `make_vocab` freezes the accumulated symbols,
with the configured reserved symbols at the fixed leading indices. -/
def VocabBuilder.makeVocab (b : VocabBuilder) : Vocab :=
  { symbols :=
      (if b.usePad then [PAD] else []) ++ (if b.useUnk then [UNK] else []) ++ b.symbols }

/-! ## TokenTensorizer (source lines 75-167) -/

/-- Configuration of `TokenTensorizer` (source lines 81-89 and 103-121):
`maxSeqLen` is the value stored by `__init__` (the configured bound, or the
`2 ** 30` default). -/
structure TokenConfig where
  addBosToken : Bool
  addEosToken : Bool
  useEosTokenForBos : Bool
  maxSeqLen : Nat
deriving DecidableEq

/-- Token pipeline of `TokenTensorizer._lookup_tokens` (source lines
123-129): truncate the tokenized text to `max_seq_len`, then optionally
prepend a BOS token (EOS reused as BOS if so configured) and append an EOS
token, both with sentinel offsets `-1`. -/
def lookupTokensPipeline (cfg : TokenConfig) (tokenized : List Token) : List Token :=
  let t1 := tokenized.take cfg.maxSeqLen
  let t2 :=
    if cfg.addBosToken then
      ⟨if cfg.useEosTokenForBos then EOS else BOS, -1, -1⟩ :: t1
    else t1
  if cfg.addEosToken then t2 ++ [⟨EOS, -1, -1⟩] else t2

/-- Failures of `TokenTensorizer.numberize`. -/
inductive TokErr
  /-- Source lines 130-132: `zip(*...)` over an empty token sequence yields
  nothing to unpack into the three variables, raising `ValueError`. -/
  | emptyUnpack
  /-- A vocabulary lookup failure, naming the offending symbol. -/
  | unknownToken (s : String)
deriving DecidableEq

/-- `TokenTensorizer._lookup_tokens` followed by `numberize` (source lines
123-134 and 153-156): tokenize the text, run the truncation/boundary
pipeline, unpack the `(value, start, end)` triples (failing on an empty
token sequence), look every value up in the vocabulary, and return the id
sequence with its length. -/
def tokenTensorizerNumberize (tokenize : String → List Token) (cfg : TokenConfig)
    (v : Vocab) (text : String) : Except TokErr (List Nat × Nat) :=
  let tokenized := lookupTokensPipeline cfg (tokenize text)
  if tokenized = [] then .error .emptyUnpack
  else
    match v.lookupAll (tokenized.map (·.value)) with
    | .error e => .error (.unknownToken e)
    | .ok tokens => .ok (tokens, tokens.length)

/-- `TokenTensorizer.initialize` (source lines 139-151): stream rows, add
every tokenized value of the text column to the builder (default reserved
symbols), freeze on exit. -/
def tokenInitVocab (tokenize : String → List Token) (rows : List String) : Vocab :=
  (rows.foldl (fun b text => b.addAll ((tokenize text).map (·.value)))
    ({} : VocabBuilder)).makeVocab

/-! ## CharacterTokenTensorizer (source lines 214-248) -/

/-- Configuration of `CharacterTokenTensorizer` (source lines 220-226): the
`TokenTensorizer` configuration extended with `max_char_length`. -/
structure CharTokenConfig extends TokenConfig where
  maxCharLength : Nat
deriving DecidableEq

/-- `CharacterTokenTensorizer._numberize_token` (source lines 240-241): the
list of character ordinals (`ord(c)`) of the token value. -/
def charNumberizeToken (t : Token) : List Nat :=
  t.value.toList.map Char.toNat

/-- `CharacterTokenTensorizer.numberize` (source lines 231-238): tokenize the
text, truncate the token list to `max_seq_len`, and return each token's
character ordinals truncated to `max_char_length` together with the lengths
of those (truncated) character sequences. -/
def charTokenNumberize (tokenize : String → List Token) (cfg : CharTokenConfig)
    (text : String) : List (List Nat) × List Nat :=
  let tokens := (tokenize text).take cfg.maxSeqLen
  let characters := tokens.map (fun t => (charNumberizeToken t).take cfg.maxCharLength)
  let lengths := characters.map (·.length)
  (characters, lengths)

/-- Restatement of claim C5's reading of the spec (§4.4), for comparison
with `charTokenNumberize`: apply the same truncation and boundary-injection
rules as the Token Encoder (`lookupTokensPipeline`), then return each
resulting token's character ordinals truncated to `max_char_length` together
with that token's character count. -/
def charTokenNumberizeClaimed (tokenize : String → List Token) (cfg : CharTokenConfig)
    (text : String) : List (List Nat) × List Nat :=
  let tokens := lookupTokensPipeline cfg.toTokenConfig (tokenize text)
  (tokens.map (fun t => (charNumberizeToken t).take cfg.maxCharLength),
   tokens.map (fun t => t.value.length))

/-! ## LabelTensorizer (source lines 251-291) -/

/-- Helper for `pySplitComma`: accumulate the current segment while
scanning. -/
def splitCommaGo (cur : List Char) : List Char → List String
  | [] => [String.mk cur]
  | ',' :: rest => String.mk cur :: splitCommaGo [] rest
  | c :: rest => splitCommaGo (cur ++ [c]) rest

/-- Python's `labels.split(",")` (source line 282): split on every comma;
an empty string yields `[""]` and adjacent commas yield empty segments. -/
def pySplitComma (s : String) : List String :=
  splitCommaGo [] s.toList

/-- `LabelTensorizer.initialize` (source lines 271-284): a builder with
`use_pad = False` and `use_unk = allow_unknown` accumulates, for every row,
the comma-split segments of the label column, and freezes on exit. -/
def labelInitVocab (allowUnknown : Bool) (rows : List String) : Vocab :=
  (rows.foldl (fun b labels => b.addAll (pySplitComma labels))
    ({ usePad := false, useUnk := allowUnknown } : VocabBuilder)).makeVocab

/-- `LabelTensorizer.numberize` (source lines 286-288): look the label
column's raw string up in the frozen vocabulary.  The string is passed to
`lookup_all` unsplit and is treated as one symbol (the non-list base case of
the lookup), so the result is a single index or an explicit failure. -/
def labelTensorizerNumberize (labels : Vocab) (s : String) : Except String Nat :=
  labels.lookupOne s

/-- Restatement of claim C3's reading of the spec (§4.5), for comparison
with `labelTensorizerNumberize`: split the label column's string on the
delimiter and look up each split segment as one categorical label. -/
def labelNumberizeClaimed (labels : Vocab) (s : String) : Except String (List Nat) :=
  labels.lookupAll (pySplitComma s)

/-- Comma-split segments of every row's label column, in row order: the
symbols `LabelTensorizer.initialize` feeds to the builder. -/
def labelSegments (rows : List String) : List String :=
  (rows.map pySplitComma).flatten

/-! ## NumericLabelTensorizer (source lines 294-330) -/

/-- `NumericLabelTensorizer.numberize` (source lines 320-327), on the
already-parsed numeric value of the label column (the `float(...)` parse is
upstream of the behavior claimed here; Python floats are modelled as exact
rationals).  With a configured rescale range the value is shifted by `lo`
and divided by `hi - lo`, and the `assert 0 <= label <= 1` failure is an
error; with no range the value passes through. -/
def numericLabelNumberize (rescaleRange : Option (ℚ × ℚ)) (x : ℚ) : Except String ℚ :=
  match rescaleRange with
  | none => .ok x
  | some (lo, hi) =>
    let label := x - lo
    let label := label / (hi - lo)
    if 0 ≤ label ∧ label ≤ 1 then .ok label else .error "AssertionError"

/-! ## FloatListTensorizer (source lines 333-379)

The four `re.sub` rewrites of `numberize` (source lines 353-360) are
embedded as character-list scans.  Each scan mirrors Python's leftmost,
non-overlapping, greedy matching for its specific pattern; the fuel argument
is a step bound (every step consumes at least one character, so the input
length is enough fuel). -/

/-- Rewrite for `re.sub(r"\[ +", "[", s)` (source line 355): drop spaces
after an opening bracket. -/
def stripBeginGo : Nat → List Char → List Char
  | 0, s => s
  | _ + 1, [] => []
  | n + 1, '[' :: ' ' :: rest => stripBeginGo n ('[' :: rest)
  | n + 1, '[' :: rest => '[' :: stripBeginGo n rest
  | n + 1, c :: rest => c :: stripBeginGo n rest

/-- Rewrite for `re.sub(r" +\]", "]", s)` (source line 357): drop spaces
before a closing bracket (a space run is dropped exactly when the run is
followed by `]`). -/
def stripEndGo : Nat → List Char → List Char
  | 0, s => s
  | _ + 1, [] => []
  | n + 1, ' ' :: rest =>
    match rest.dropWhile (· == ' ') with
    | ']' :: _ => stripEndGo n rest
    | _ => ' ' :: stripEndGo n rest
  | n + 1, c :: rest => c :: stripEndGo n rest

/-- Rewrite for `re.sub(r"([0-9]+)[.]([^0-9]+)", "\\1.0\\2", s)` (source
line 359): a digit run followed by a dot and at least one non-digit gets a
`0` inserted after the dot; scanning resumes after the non-digit run. -/
def pointFixGo : Nat → List Char → List Char
  | 0, s => s
  | _ + 1, [] => []
  | n + 1, c :: rest =>
    if c.isDigit then
      match rest.dropWhile Char.isDigit with
      | '.' :: d :: after2 =>
        if d.isDigit then c :: pointFixGo n rest
        else
          (c :: rest.takeWhile Char.isDigit) ++ '.' :: '0' ::
            ((d :: after2).takeWhile (fun x => !x.isDigit)) ++
              pointFixGo n ((d :: after2).dropWhile (fun x => !x.isDigit))
      | _ => c :: pointFixGo n rest
    else c :: pointFixGo n rest

/-- Rewrite for `re.sub(r",? +", ",", s)` (source line 360): a space run,
with an optional comma immediately before it, becomes a single comma. -/
def commaFixGo : Nat → List Char → List Char
  | 0, s => s
  | _ + 1, [] => []
  | n + 1, ',' :: ' ' :: rest => ',' :: commaFixGo n (rest.dropWhile (· == ' '))
  | n + 1, ' ' :: rest => ',' :: commaFixGo n (rest.dropWhile (· == ' '))
  | n + 1, c :: rest => c :: commaFixGo n rest

/-- The full normalization pipeline of `FloatListTensorizer.numberize`
(source lines 353-360): `strip_begin`, `strip_end`, `point_fixed`,
`json_input`. -/
def normalizeFloatList (s : String) : String :=
  let cs := s.toList
  let stripBegin := stripBeginGo cs.length cs
  let stripEnd := stripEndGo stripBegin.length stripBegin
  let pointFixed := pointFixGo stripEnd.length stripEnd
  String.mk (commaFixGo pointFixed.length pointFixed)

/-- Modelled from the spec (§4.7): the JSON values relevant to the
float-list encoder, numbers (as exact rationals) and arrays.  This is the
fragment of `json.loads` the encoder is specified over. -/
inductive JsonVal
  | jnum (q : ℚ)
  | jarr (vs : List JsonVal)

/-- Numeric value of a digit run. -/
def digitsVal (ds : List Char) : Nat :=
  ds.foldl (fun n c => 10 * n + (c.toNat - 48)) 0

/-- Rational value `sign * (ip + fv / 10^fd) * 10^e` of a parsed JSON
number, computed over integers (`mkRat`) so that concrete parses reduce in
the kernel: `ip` integer part, `fv` fraction digits value, `fd` fraction
digit count, `e` exponent. -/
def jsonNumberVal (neg : Bool) (ip fv fd : Nat) (e : ℤ) : ℚ :=
  let mantissa : Int := (if neg then -1 else 1) * (ip * 10 ^ fd + fv)
  mkRat (mantissa * 10 ^ e.toNat) (10 ^ fd * 10 ^ (-e).toNat)

/-- Modelled from the spec: the JSON number grammar
`-? (0 | [1-9][0-9]*) (. [0-9]+)? ([eE][+-]?[0-9]+)?`, returning the value
and the unconsumed input.  A dot or exponent marker not followed by digits
is left unconsumed (the surrounding parse then fails, as `json.loads`
does). -/
def parseJsonNumber (s : List Char) : Option (ℚ × List Char) :=
  let signRest : Bool × List Char := match s with | '-' :: r => (true, r) | _ => (false, s)
  match signRest.2 with
  | [] => none
  | c :: r =>
    if ¬ c.isDigit then none
    else
      let ipRest : Nat × List Char :=
        if c = '0' then (0, r)
        else (digitsVal (c :: r.takeWhile Char.isDigit), r.dropWhile Char.isDigit)
      let fracRest : (Nat × Nat) × List Char :=
        match ipRest.2 with
        | '.' :: r2 =>
          match r2.takeWhile Char.isDigit with
          | [] => ((0, 0), ipRest.2)
          | ds => ((digitsVal ds, ds.length), r2.dropWhile Char.isDigit)
        | _ => ((0, 0), ipRest.2)
      let expRest : ℤ × List Char :=
        match fracRest.2 with
        | 'e' :: '+' :: r3 =>
          match r3.takeWhile Char.isDigit with
          | [] => (0, fracRest.2)
          | ds => ((digitsVal ds : ℤ), r3.dropWhile Char.isDigit)
        | 'e' :: '-' :: r3 =>
          match r3.takeWhile Char.isDigit with
          | [] => (0, fracRest.2)
          | ds => (-(digitsVal ds : ℤ), r3.dropWhile Char.isDigit)
        | 'e' :: r3 =>
          match r3.takeWhile Char.isDigit with
          | [] => (0, fracRest.2)
          | ds => ((digitsVal ds : ℤ), r3.dropWhile Char.isDigit)
        | 'E' :: '+' :: r3 =>
          match r3.takeWhile Char.isDigit with
          | [] => (0, fracRest.2)
          | ds => ((digitsVal ds : ℤ), r3.dropWhile Char.isDigit)
        | 'E' :: '-' :: r3 =>
          match r3.takeWhile Char.isDigit with
          | [] => (0, fracRest.2)
          | ds => (-(digitsVal ds : ℤ), r3.dropWhile Char.isDigit)
        | 'E' :: r3 =>
          match r3.takeWhile Char.isDigit with
          | [] => (0, fracRest.2)
          | ds => ((digitsVal ds : ℤ), r3.dropWhile Char.isDigit)
        | _ => (0, fracRest.2)
      some (jsonNumberVal signRest.1 ipRest.1 fracRest.1.1 fracRest.1.2 expRest.1,
        expRest.2)

/-- JSON whitespace skipping. -/
def skipWs : List Char → List Char
  | [] => []
  | c :: rest =>
    if c = ' ' ∨ c = '\t' ∨ c = '\n' ∨ c = '\r' then skipWs rest else c :: rest

mutual

/-- Modelled from the spec: parse one JSON value (number or array), fuelled
(each step consumes at least one character). -/
def parseJsonValue : Nat → List Char → Option (JsonVal × List Char)
  | 0, _ => none
  | n + 1, s =>
    match skipWs s with
    | '[' :: r =>
      match skipWs r with
      | ']' :: r2 => some (.jarr [], r2)
      | _ =>
        match parseJsonElems n r with
        | some (vs, rest) => some (.jarr vs, rest)
        | none => none
    | other =>
      match parseJsonNumber other with
      | some (q, rest) => some (.jnum q, rest)
      | none => none

/-- Modelled from the spec: parse `value (, value)* ]`, the non-empty
element list of a JSON array with its closing bracket. -/
def parseJsonElems : Nat → List Char → Option (List JsonVal × List Char)
  | 0, _ => none
  | n + 1, s =>
    match parseJsonValue n s with
    | none => none
    | some (v, rest) =>
      match skipWs rest with
      | ',' :: r2 =>
        match parseJsonElems n r2 with
        | some (vs, rest2) => some (v :: vs, rest2)
        | none => none
      | ']' :: r2 => some ([v], r2)
      | _ => none

end

/-- Modelled from the spec: `json.loads` on the number/array fragment —
parse one value and require only whitespace to remain. -/
def parseJson (s : String) : Option JsonVal :=
  let cs := s.toList
  match parseJsonValue (cs.length + 1) cs with
  | some (v, rest) => if skipWs rest = [] then some v else none
  | none => none

/-- Failures of `FloatListTensorizer.numberize` (source lines 361-376),
with the data each raised exception carries. -/
inductive FLErr
  /-- `json.loads` failure: the original column text and the normalized
  (`re` output) text are both reported (source lines 363-367). -/
  | parseFailure (orig : String) (reOutput : String)
  /-- `type(res) is not list` (source lines 368-369). -/
  | notAFloatList (res : JsonVal)
  /-- The `assert len(res) == self.dim` failure, reporting the expected
  dimension, the actual length, and the parsed value (source lines
  370-375). -/
  | dimMismatch (expected : Option Nat) (got : Nat) (res : List JsonVal)
  /-- `float(n)` on a non-numeric element (such as a nested list) raises. -/
  | floatConvError (v : JsonVal)

/-- The element conversion `[float(n) for n in res]` (source line 376):
left to right, failing at the first non-numeric element. -/
def floatAll : List JsonVal → Except FLErr (List ℚ)
  | [] => .ok []
  | .jnum q :: vs =>
    match floatAll vs with
    | .ok l => .ok (q :: l)
    | .error e => .error e
  | v :: _ => .error (.floatConvError v)

/-- `FloatListTensorizer.numberize` (source lines 353-376): normalize the
column text, parse it as JSON, require a list, check the configured
dimension when `error_check` is set, and convert every element to a
float. -/
def floatListNumberize (errorCheck : Bool) (dim : Option Nat) (s : String) :
    Except FLErr (List ℚ) :=
  let jsonInput := normalizeFloatList s
  match parseJson jsonInput with
  | none => .error (.parseFailure s jsonInput)
  | some (.jnum q) => .error (.notAFloatList (.jnum q))
  | some (.jarr vs) =>
    if errorCheck ∧ dim ≠ some vs.length then .error (.dimMismatch dim vs.length vs)
    else floatAll vs

/-! ## WordLabelTensorizer (source lines 385-458) -/

/-- `WordLabelTensorizer.initialize` (source lines 422-433): a default
builder first records the `NO_LABEL` sentinel, `use_unk` is set to
`allow_unknown` (`use_pad` keeps its default), every row's slot labels are
accumulated, and the vocabulary freezes on exit. -/
def wordLabelInitVocab (allowUnknown : Bool) (rows : List (List Slot)) : Vocab :=
  let b := (({} : VocabBuilder).add NO_LABEL)
  (rows.foldl (fun (b : VocabBuilder) slots => b.addAll (slots.map (·.label)))
    { b with useUnk := allowUnknown }).makeVocab

/-- The alignment loop of `WordLabelTensorizer.numberize` (source lines
444-454), as a recursion on the token suffix: for the current token, slots
whose interval ends strictly before the token starts (`start > slot.end`)
are skipped (the slot pointer advances); if slots run out the loop exits
with no entry for the remaining tokens; otherwise the token is labelled with
the current slot's label when `end > slot.start` and with `NO_LABEL`
otherwise, and the token pointer advances. -/
def alignSlotLabels : List Token → List Slot → List String
  | [], _ => []
  | t :: ts, ss =>
    match ss.dropWhile (fun s => decide (t.start > s.«end»)) with
    | [] => []
    | s :: ss2 =>
      (if t.«end» > s.start then s.label else NO_LABEL) :: alignSlotLabels ts (s :: ss2)

/-- `WordLabelTensorizer.numberize` (source lines 435-455): tokenize the
text column, align the slot labels to the tokens, and look the resulting
label texts up in the vocabulary. -/
def wordLabelNumberize (tokenize : String → List Token) (v : Vocab)
    (slots : List Slot) (text : String) : Except String (List Nat) :=
  v.lookupAll (alignSlotLabels (tokenize text) slots)

/-! ## initialize_tensorizers (source lines 545-558)

The function drives each tensorizer's `initialize()` generator purely
through the generator protocol, so a generator is modelled by its observable
protocol state: whether `send(None)` suspends at a `yield` (rather than
raising `StopIteration`), the rows delivered by `send(row)` so far, and how
often `GeneratorExit` has been delivered (`close`), which is the event whose
handler freezes the accumulated vocabulary. -/

/-- Observable state of one tensorizer's `initialize()` generator. -/
structure GenConsumer (ρ : Type) where
  suspendsOnPrime : Bool
  received : List ρ := []
  closeCount : Nat := 0
deriving DecidableEq

/-- Modelled generator protocol: `send(row)` delivers one row to the
suspended accumulation loop. -/
def GenConsumer.send (g : GenConsumer ρ) (r : ρ) : GenConsumer ρ :=
  { g with received := g.received ++ [r] }

/-- Modelled generator protocol: `close()` raises `GeneratorExit` inside the
generator, whose handler performs the terminal action (freezing the
vocabulary); `closeCount` counts those terminal actions. -/
def GenConsumer.close (g : GenConsumer ρ) : GenConsumer ρ :=
  { g with closeCount := g.closeCount + 1 }

/-- `initialize_tensorizers` (source lines 545-558): prime every generator
with `send(None)`, keeping exactly those that suspend (the others raise
`StopIteration` and are dropped); then, if any remain, send each data-source
row in turn to every remaining generator.  The function performs no further
generator operation — in particular it never calls `close`. -/
def initTensorizers (gens : List (GenConsumer ρ)) (rows : List ρ) : List (GenConsumer ρ) :=
  let initializers := gens.filter (·.suspendsOnPrime)
  if initializers.isEmpty then initializers
  else rows.foldl (fun inits row => inits.map (·.send row)) initializers

/-! ## Helper lemmas -/

theorem vocabIndexOf_isSome_iff (l : List String) (s : String) :
    (vocabIndexOf l s).isSome ↔ s ∈ l := by
  induction l with
  | nil => simp [vocabIndexOf]
  | cons x xs ih =>
    simp only [vocabIndexOf]
    by_cases h : x = s
    · simp [h]
    · have hmap : ((vocabIndexOf xs s).map (· + 1)).isSome = (vocabIndexOf xs s).isSome := by
        cases vocabIndexOf xs s <;> rfl
    
      rw [if_neg h, hmap, ih, List.mem_cons]
      constructor
      · exact Or.inr
      · rintro (rfl | hs)
        · exact absurd rfl h
        · exact hs

theorem vocabIndexOf_eq_none_iff (l : List String) (s : String) :
    vocabIndexOf l s = none ↔ s ∉ l := by
  rw [← vocabIndexOf_isSome_iff, Option.not_isSome_iff_eq_none]

theorem lookupAll_total_of_unk (v : Vocab) (hu : UNK ∈ v.symbols) (ss : List String) :
    ∃ is, v.lookupAll ss = .ok is ∧ is.length = ss.length := by
  induction ss with
  | nil => exact ⟨[], rfl, rfl⟩
  | cons s ss ih =>
    obtain ⟨is, hok, hlen⟩ := ih
    have hone : ∃ i, v.lookupOne s = .ok i := by
      unfold Vocab.lookupOne
      match h1 : vocabIndexOf v.symbols s with
      | some i => exact ⟨i, rfl⟩
      | none =>
        match h2 : vocabIndexOf v.symbols UNK with
        | some u => exact ⟨u, rfl⟩
        | none =>
          rw [vocabIndexOf_eq_none_iff] at h2
          exact absurd hu h2
    obtain ⟨i, hi⟩ := hone
    refine ⟨i :: is, ?_, by simp [hlen]⟩
    unfold Vocab.lookupAll
    rw [hi, hok]

theorem mem_symbols_add (b : VocabBuilder) (x s : String) :
    s ∈ (b.add x).symbols ↔ s ∈ b.symbols ∨ s = x := by
  unfold VocabBuilder.add
  by_cases h : x ∈ b.symbols
  · rw [if_pos h]
    constructor
    · exact Or.inl
    · rintro (hs | rfl)
      · exact hs
      · exact h
  · rw [if_neg h]
    simp

theorem mem_symbols_addAll (ss : List String) (b : VocabBuilder) (s : String) :
    s ∈ (b.addAll ss).symbols ↔ s ∈ b.symbols ∨ s ∈ ss := by
  induction ss generalizing b with
  | nil => simp [VocabBuilder.addAll]
  | cons x xs ih =>
    show s ∈ ((b.add x).addAll xs).symbols ↔ _
    rw [ih, mem_symbols_add]
    simp [or_assoc]

theorem usePad_addAll (ss : List String) (b : VocabBuilder) :
    (b.addAll ss).usePad = b.usePad := by
  induction ss generalizing b with
  | nil => rfl
  | cons x xs ih =>
    show ((b.add x).addAll xs).usePad = _
    rw [ih]
    unfold VocabBuilder.add
    split <;> rfl

theorem useUnk_addAll (ss : List String) (b : VocabBuilder) :
    (b.addAll ss).useUnk = b.useUnk := by
  induction ss generalizing b with
  | nil => rfl
  | cons x xs ih =>
    show ((b.add x).addAll xs).useUnk = _
    rw [ih]
    unfold VocabBuilder.add
    split <;> rfl

theorem mem_symbols_labelFoldl (rows : List String) (b : VocabBuilder) (s : String) :
    s ∈ (rows.foldl (fun b labels => b.addAll (pySplitComma labels)) b).symbols ↔
      s ∈ b.symbols ∨ s ∈ labelSegments rows := by
  induction rows generalizing b with
  | nil => simp [labelSegments]
  | cons r rs ih =>
    show s ∈ (rs.foldl _ (b.addAll (pySplitComma r))).symbols ↔ _
    rw [ih, mem_symbols_addAll]
    simp [labelSegments, or_assoc]

theorem usePad_labelFoldl (rows : List String) (b : VocabBuilder) :
    (rows.foldl (fun b labels => b.addAll (pySplitComma labels)) b).usePad = b.usePad := by
  induction rows generalizing b with
  | nil => rfl
  | cons r rs ih =>
    show (rs.foldl _ (b.addAll (pySplitComma r))).usePad = _
    rw [ih, usePad_addAll]

theorem useUnk_labelFoldl (rows : List String) (b : VocabBuilder) :
    (rows.foldl (fun b labels => b.addAll (pySplitComma labels)) b).useUnk = b.useUnk := by
  induction rows generalizing b with
  | nil => rfl
  | cons r rs ih =>
    show (rs.foldl _ (b.addAll (pySplitComma r))).useUnk = _
    rw [ih, useUnk_addAll]

theorem mem_symbols_labelInitVocab (allowUnknown : Bool) (rows : List String) (s : String) :
    s ∈ (labelInitVocab allowUnknown rows).symbols ↔
      (allowUnknown = true ∧ s = UNK) ∨ s ∈ labelSegments rows := by
  unfold labelInitVocab VocabBuilder.makeVocab
  simp only [Vocab.mk.injEq]
  rw [usePad_labelFoldl, useUnk_labelFoldl]
  simp only [List.mem_append]
  rw [mem_symbols_labelFoldl]
  cases allowUnknown <;> simp

theorem floatAll_ne_dimMismatch (vs : List JsonVal) (e : Option Nat) (g : Nat)
    (r : List JsonVal) : floatAll vs ≠ .error (.dimMismatch e g r) := by
  induction vs with
  | nil => simp [floatAll]
  | cons v vs ih =>
    cases v with
    | jnum q =>
      show (match floatAll vs with
        | .ok l => (.ok (q :: l) : Except FLErr (List ℚ))
        | .error e => .error e) ≠ _
      cases hrec : floatAll vs with
      | ok l => simp
      | error e2 =>
        simp only
        intro h
        apply ih
        rw [hrec]
        exact h
    | jarr ws =>
      show (.error (.floatConvError (.jarr ws)) : Except FLErr (List ℚ)) ≠ _
      intro h
      exact FLErr.noConfusion (Except.error.inj h)

theorem initFoldl_sends_all {ρ : Type} (rows : List ρ) (inits : List (GenConsumer ρ)) :
    rows.foldl (fun inits row => inits.map (·.send row)) inits =
      inits.map (fun g => { g with received := g.received ++ rows }) := by
  induction rows generalizing inits with
  | nil =>
    simp only [List.foldl_nil, List.append_nil]
    exact (List.map_id inits).symm
  | cons r rs ih =>
    rw [List.foldl_cons, ih, List.map_map]
    apply List.map_congr_left
    intro g _
    simp [GenConsumer.send]

/-! ## Claim theorems -/

/-- Claim C6: in the alignment loop, when the current token's start offset
is strictly greater than the current span label's end offset only the
span-label pointer advances; otherwise only the token pointer advances and
the token is assigned the span label's text exactly when the token's end
offset is strictly greater than the span label's start offset, else the
`NO_LABEL` sentinel; and the text "play the song" with tokens
`[("play",0,4),("the",5,8),("song",9,13)]` and span labels
`[("song_name",9,13)]` yields `[NO_LABEL, NO_LABEL, "song_name"]`,
vocabulary-looked-up by `numberize`. -/
theorem alignSlotLabels_step_rules_and_example (t : Token) (ts : List Token)
    (s : Slot) (ss : List Slot) :
    (t.start > s.«end» →
      alignSlotLabels (t :: ts) (s :: ss) = alignSlotLabels (t :: ts) ss) ∧
    (¬ t.start > s.«end» →
      alignSlotLabels (t :: ts) (s :: ss) =
        (if t.«end» > s.start then s.label else NO_LABEL) :: alignSlotLabels ts (s :: ss)) ∧
    alignSlotLabels [⟨"play", 0, 4⟩, ⟨"the", 5, 8⟩, ⟨"song", 9, 13⟩]
      [⟨"song_name", 9, 13⟩] = [NO_LABEL, NO_LABEL, "song_name"] ∧
    ∀ v : Vocab,
      wordLabelNumberize (fun _ => [⟨"play", 0, 4⟩, ⟨"the", 5, 8⟩, ⟨"song", 9, 13⟩]) v
          [⟨"song_name", 9, 13⟩] "play the song" =
        v.lookupAll [NO_LABEL, NO_LABEL, "song_name"] := by
  refine ⟨?_, ?_, rfl, fun v => rfl⟩
  · intro h
    show (match (s :: ss).dropWhile (fun s => decide (t.start > s.«end»)) with
      | [] => []
      | s :: ss2 =>
        (if t.«end» > s.start then s.label else NO_LABEL) :: alignSlotLabels ts (s :: ss2)) =
      alignSlotLabels (t :: ts) ss
    rw [List.dropWhile_cons, if_pos (by simpa using h)]
    rfl
  · intro h
    show (match (s :: ss).dropWhile (fun s => decide (t.start > s.«end»)) with
      | [] => []
      | s :: ss2 =>
        (if t.«end» > s.start then s.label else NO_LABEL) :: alignSlotLabels ts (s :: ss2)) =
      _
    rw [List.dropWhile_cons, if_neg (by simpa using h)]

/-- Claim C6 witness: the two step rules applied at concrete inputs — a
token starting after the label's end leaves the output unchanged when the
label is dropped, and an overlap-free token whose start does not exceed the
label's end is assigned `NO_LABEL`. -/
theorem alignSlotLabels_step_rules_witness :
    ((10 : Int) > 4 ∧
      alignSlotLabels [⟨"x", 10, 12⟩] [⟨"l", 0, 4⟩] = alignSlotLabels [⟨"x", 10, 12⟩] []) ∧
    (¬ (0 : Int) > 13 ∧
      alignSlotLabels [⟨"play", 0, 4⟩] [⟨"song_name", 9, 13⟩] =
        (if (4 : Int) > 9 then "song_name" else NO_LABEL) ::
          alignSlotLabels [] [⟨"song_name", 9, 13⟩]) :=
  ⟨⟨by decide,
    (alignSlotLabels_step_rules_and_example ⟨"x", 10, 12⟩ [] ⟨"l", 0, 4⟩ []).1 (by decide)⟩,
   ⟨by decide,
    (alignSlotLabels_step_rules_and_example ⟨"play", 0, 4⟩ [] ⟨"song_name", 9, 13⟩ []).2.1
      (by decide)⟩⟩

/-- Claim C1 (code bug): with the "play the song" tokens and an empty
span-label list, the alignment loop exits immediately, so
`WordLabelTensorizer.numberize` returns 0 label ids for 3 tokens — not one
"no label" id per token as the claim (and the method's own docstring,
source lines 436-439) requires. -/
theorem wordLabelNumberize_drops_trailing_tokens :
    ([⟨"play", 0, 4⟩, ⟨"the", 5, 8⟩, ⟨"song", 9, 13⟩] : List Token).length = 3 ∧
    alignSlotLabels [⟨"play", 0, 4⟩, ⟨"the", 5, 8⟩, ⟨"song", 9, 13⟩] [] = [] ∧
    wordLabelNumberize (fun _ => [⟨"play", 0, 4⟩, ⟨"the", 5, 8⟩, ⟨"song", 9, 13⟩])
      (wordLabelInitVocab false []) [] "play the song" = .ok [] :=
  ⟨rfl, rfl, rfl⟩

/-- Claim C10: when the tokenizer yields zero tokens and neither boundary
token is configured, `TokenTensorizer.numberize` fails with the
empty-sequence unpacking error instead of returning an empty id sequence. -/
theorem tokenNumberize_empty_unpack_error (tokenize : String → List Token)
    (cfg : TokenConfig) (v : Vocab) (text : String)
    (hb : cfg.addBosToken = false) (he : cfg.addEosToken = false)
    (h0 : tokenize text = []) :
    tokenTensorizerNumberize tokenize cfg v text = .error .emptyUnpack := by
  simp [tokenTensorizerNumberize, lookupTokensPipeline, h0, hb, he]

/-- Concrete tokenizer for the claim C10 witness: every text tokenizes to
zero tokens. -/
def c10Tokenize : String → List Token := fun _ => []

/-- Concrete configuration for the claim C10 witness. -/
def c10Config : TokenConfig := ⟨false, false, false, 5⟩

/-- Concrete vocabulary for the claim C10 witness. -/
def c10Vocab : Vocab := ⟨[PAD, UNK]⟩

/-- Claim C10 witness: the empty-tokenization failure at a concrete
configuration. -/
theorem tokenNumberize_empty_unpack_witness :
    c10Config.addBosToken = false ∧ c10Config.addEosToken = false ∧
    c10Tokenize "" = [] ∧
    tokenTensorizerNumberize c10Tokenize c10Config c10Vocab "" = .error .emptyUnpack :=
  ⟨rfl, rfl, rfl, tokenNumberize_empty_unpack_error c10Tokenize c10Config c10Vocab "" rfl rfl rfl⟩

/-- Concrete tokenizer for the claim C7 counterexample: zero tokens. -/
def c7Tokenize : String → List Token := fun _ => []

/-- Concrete configuration for the claim C7 counterexample. -/
def c7Config : TokenConfig := ⟨false, false, false, 5⟩

/-- Concrete vocabulary for the claim C7 counterexample. -/
def c7Vocab : Vocab := ⟨[PAD, UNK]⟩

/-- Claim C7 counterexample: on a row whose text tokenizes to zero tokens,
with no boundary token configured, `numberize` returns no pair at all — it
fails with the unpacking error — although the claim requires a pair whose
sequence has length `min(0 + 0 + 0, 5 + 0 + 0) = 0`. -/
theorem tokenNumberize_empty_row_no_pair :
    tokenTensorizerNumberize c7Tokenize c7Config c7Vocab "" = .error .emptyUnpack ∧
    min (0 + 0 + 0) (c7Config.maxSeqLen + 0 + 0) = 0 :=
  ⟨rfl, rfl⟩

/-- Claim C7 (amended): for every row whose token sequence is nonempty or
with a boundary token configured, `TokenTensorizer.numberize` returns
`(ids, len(ids))` with
`len(ids) = min(token_count + bos? + eos?, max_seq_len + bos? + eos?)`, and
any symbol missing from the vocabulary looks up to the UNK index.  The
hypothesis `0 < max_seq_len` is the `__init__` invariant (source line 120:
`max_seq_len or 2 ** 30` is never 0). -/
theorem tokenNumberize_length_spec (tokenize : String → List Token) (cfg : TokenConfig)
    (v : Vocab) (text : String) (hu : UNK ∈ v.symbols) (hm : 0 < cfg.maxSeqLen)
    (hne : tokenize text ≠ [] ∨ cfg.addBosToken = true ∨ cfg.addEosToken = true) :
    ∃ ids, tokenTensorizerNumberize tokenize cfg v text = .ok (ids, ids.length) ∧
      ids.length =
        min ((tokenize text).length + cfg.addBosToken.toNat + cfg.addEosToken.toNat)
          (cfg.maxSeqLen + cfg.addBosToken.toNat + cfg.addEosToken.toNat) ∧
      ∃ u, vocabIndexOf v.symbols UNK = some u ∧
        ∀ s, vocabIndexOf v.symbols s = none → v.lookupOne s = .ok u := by
  have hplen : (lookupTokensPipeline cfg (tokenize text)).length =
      min (tokenize text).length cfg.maxSeqLen +
        cfg.addBosToken.toNat + cfg.addEosToken.toNat := by
    unfold lookupTokensPipeline
    cases hb : cfg.addBosToken <;> cases he : cfg.addEosToken <;>
      simp [List.length_take] <;> omega
  have hpne : lookupTokensPipeline cfg (tokenize text) ≠ [] := by
    intro hnil
    have h0 : (lookupTokensPipeline cfg (tokenize text)).length = 0 := by rw [hnil]; rfl
    rw [hplen] at h0
    rcases hne with hne | hne | hne
    · have : (tokenize text).length ≠ 0 := fun hz => hne (List.eq_nil_of_length_eq_zero hz)
      omega
    · rw [hne] at h0; simp [Bool.toNat] at h0
    · rw [hne] at h0; simp [Bool.toNat] at h0
  obtain ⟨ids, hok, hlen⟩ :=
    lookupAll_total_of_unk v hu ((lookupTokensPipeline cfg (tokenize text)).map (·.value))
  refine ⟨ids, ?_, ?_, ?_⟩
  · unfold tokenTensorizerNumberize
    rw [if_neg hpne, hok]
  · rw [hlen, List.length_map, hplen]
    omega
  · have husome : (vocabIndexOf v.symbols UNK).isSome := (vocabIndexOf_isSome_iff _ _).mpr hu
    obtain ⟨u, hu2⟩ := Option.isSome_iff_exists.mp husome
    refine ⟨u, hu2, fun s hs => ?_⟩
    unfold Vocab.lookupOne
    rw [hs, hu2]

/-- Concrete tokenizer for the claim C7 witness: two tokens. -/
def c7wTokenize : String → List Token := fun _ => [⟨"hello", 0, 5⟩, ⟨"world", 6, 11⟩]

/-- Concrete configuration for the claim C7 witness: both boundary tokens,
`max_seq_len = 1`. -/
def c7wConfig : TokenConfig := ⟨true, true, false, 1⟩

/-- Concrete vocabulary for the claim C7 witness. -/
def c7wVocab : Vocab := ⟨[PAD, UNK, BOS, EOS]⟩

/-- Claim C7 witness: the length law at a concrete input (two tokens
truncated to one, plus BOS and EOS). -/
theorem tokenNumberize_length_spec_witness :
    UNK ∈ c7wVocab.symbols ∧ 0 < c7wConfig.maxSeqLen ∧
    (∃ ids, tokenTensorizerNumberize c7wTokenize c7wConfig c7wVocab "hello world" =
        .ok (ids, ids.length) ∧
      ids.length =
        min ((c7wTokenize "hello world").length +
            c7wConfig.addBosToken.toNat + c7wConfig.addEosToken.toNat)
          (c7wConfig.maxSeqLen + c7wConfig.addBosToken.toNat + c7wConfig.addEosToken.toNat) ∧
      ∃ u, vocabIndexOf c7wVocab.symbols UNK = some u ∧
        ∀ s, vocabIndexOf c7wVocab.symbols s = none → c7wVocab.lookupOne s = .ok u) :=
  ⟨by decide, by decide,
    tokenNumberize_length_spec c7wTokenize c7wConfig c7wVocab "hello world"
      (by decide) (by decide) (Or.inr (Or.inl rfl))⟩

/-- Concrete tokenizer for the claim C5 counterexample: one token "hi". -/
def c5Tokenize : String → List Token := fun _ => [⟨"hi", 0, 2⟩]

/-- Concrete configuration for the claim C5 counterexample: BOS configured,
`max_seq_len = 5`, `max_char_length = 20`. -/
def c5Config : CharTokenConfig := ⟨⟨true, false, false, 5⟩, 20⟩

/-- Claim C5 counterexample: with `add_bos_token` configured,
`CharacterTokenTensorizer.numberize` emits one character sequence for the
single source token (no injected BOS entry), while the claimed behavior
(the Token Encoder's boundary-injection rules) emits two — and reports the
BOS token's full 21-character count where the code could only ever report a
truncated length.  The two results differ. -/
theorem charTokenNumberize_no_boundary_example :
    charTokenNumberize c5Tokenize c5Config "hi" = ([[104, 105]], [2]) ∧
    charTokenNumberizeClaimed c5Tokenize c5Config "hi" =
      ([[95, 95, 66, 69, 71, 73, 78, 95, 79, 70, 95, 83, 69, 78, 84, 69, 78, 67, 69, 95],
        [104, 105]], [21, 2]) ∧
    charTokenNumberize c5Tokenize c5Config "hi" ≠
      charTokenNumberizeClaimed c5Tokenize c5Config "hi" := by
  refine ⟨rfl, rfl, ?_⟩
  decide

/-- Claim C5 (amended): `CharacterTokenTensorizer.numberize` truncates the
token list to `max_seq_len` but injects no boundary tokens regardless of the
BOS/EOS configuration; for each remaining token it returns the character
ordinals truncated to `max_char_length` together with the truncated
sequence's length `min(character count, max_char_length)` — not the token's
full character count. -/
theorem charTokenNumberize_truncation_only (tokenize : String → List Token)
    (cfg : CharTokenConfig) (text : String) :
    (charTokenNumberize tokenize cfg text).2 =
      ((tokenize text).take cfg.maxSeqLen).map
        (fun t => min t.value.length cfg.maxCharLength) ∧
    (charTokenNumberize tokenize cfg text).1.length =
      min (tokenize text).length cfg.maxSeqLen ∧
    (charTokenNumberize tokenize cfg text).2.length =
      min (tokenize text).length cfg.maxSeqLen := by
  unfold charTokenNumberize
  refine ⟨?_, ?_, ?_⟩
  · simp only [List.map_map]
    apply List.map_congr_left
    intro t _
    have hchars : (charNumberizeToken t).length = t.value.length := by
      simp [charNumberizeToken]
    simp [List.length_take, hchars, Nat.min_comm]
  · simp [List.length_take, Nat.min_comm]
  · simp [List.length_take, Nat.min_comm]

/-- Claim C8: with a configured rescale range `[lo, hi]`,
`NumericLabelTensorizer.numberize` returns `(x - lo) / (hi - lo)` whenever
that value lies in `[0, 1]` and fails (never clamps) whenever it does not;
in particular with range `[0, 10]` input `0` yields `0`, input `10` yields
`1`, and inputs `-1` and `11` fail.  The hypothesis `lo < hi` is the
constructor's `assert` (source lines 315-317). -/
theorem numericLabelNumberize_rescale_spec (lo hi x : ℚ) (_h : lo < hi) :
    (0 ≤ (x - lo) / (hi - lo) → (x - lo) / (hi - lo) ≤ 1 →
      numericLabelNumberize (some (lo, hi)) x = .ok ((x - lo) / (hi - lo))) ∧
    (¬ (0 ≤ (x - lo) / (hi - lo) ∧ (x - lo) / (hi - lo) ≤ 1) →
      numericLabelNumberize (some (lo, hi)) x = .error "AssertionError") ∧
    numericLabelNumberize (some (0, 10)) 0 = .ok 0 ∧
    numericLabelNumberize (some (0, 10)) 10 = .ok 1 ∧
    numericLabelNumberize (some (0, 10)) (-1) = .error "AssertionError" ∧
    numericLabelNumberize (some (0, 10)) 11 = .error "AssertionError" := by
  refine ⟨?_, ?_, by norm_num [numericLabelNumberize], by norm_num [numericLabelNumberize],
    by norm_num [numericLabelNumberize], by norm_num [numericLabelNumberize]⟩
  · intro h0 h1
    show (if 0 ≤ (x - lo) / (hi - lo) ∧ (x - lo) / (hi - lo) ≤ 1 then
        Except.ok ((x - lo) / (hi - lo)) else Except.error "AssertionError") = _
    rw [if_pos ⟨h0, h1⟩]
  · intro hout
    show (if 0 ≤ (x - lo) / (hi - lo) ∧ (x - lo) / (hi - lo) ≤ 1 then
        Except.ok ((x - lo) / (hi - lo)) else Except.error "AssertionError") = _
    rw [if_neg hout]

/-- Claim C8 witness: the rescale law applied at `lo = 0`, `hi = 10`,
`x = 5`. -/
theorem numericLabelNumberize_rescale_witness :
    (0 : ℚ) < 10 ∧
    numericLabelNumberize (some (0, 10)) 5 = .ok (((5 : ℚ) - 0) / (10 - 0)) :=
  ⟨by norm_num,
    (numericLabelNumberize_rescale_spec 0 10 5 (by norm_num)).1 (by norm_num) (by norm_num)⟩

/-- Claim C2 counterexample: one suspending initializer and a one-row data
source.  `initialize_tensorizers` delivers the row but performs no `close`:
the returned consumer has received `[0]` and its vocabulary-freeze count is
`0`, not the exactly-once the claim requires. -/
theorem initTensorizers_never_closes_example :
    initTensorizers [⟨true, [], 0⟩] [(0 : Nat)] = [⟨true, [0], 0⟩] ∧
    (initTensorizers [⟨true, [], 0⟩] [(0 : Nat)]).map (·.closeCount) = [0] ∧
    (initTensorizers [⟨true, [], 0⟩] [(0 : Nat)]).map (·.closeCount) ≠ [1] := by
  refine ⟨by decide, by decide, by decide⟩

/-- Claim C2 (amended): `initialize_tensorizers` keeps exactly the
initializers that suspend at priming (dropping the others), delivers every
data-source row to each of them, in source order, exactly once — and then
returns without closing them: every remaining consumer's freeze count is
unchanged (the terminal vocabulary-freeze action is left to garbage
collection of the generator objects, outside the function). -/
theorem initTensorizers_streams_rows_without_close {ρ : Type}
    (gens : List (GenConsumer ρ)) (rows : List ρ) :
    initTensorizers gens rows =
      (gens.filter (·.suspendsOnPrime)).map
        (fun g => { g with received := g.received ++ rows }) := by
  unfold initTensorizers
  by_cases h : (gens.filter (·.suspendsOnPrime)).isEmpty
  · rw [if_pos h]
    rw [List.isEmpty_iff] at h
    rw [h]
    rfl
  · rw [if_neg h]
    exact initFoldl_sends_all rows _

/-- Claim C3 counterexample: a corpus row `"a,b"` initializes the label
vocabulary to the two segments `a` and `b`, but `numberize` on the row does
not split — it looks the whole string `"a,b"` up as one symbol and fails
(no UNK is reserved when `allow_unknown` is false), while the claimed
split-and-lookup behavior returns the two segment ids. -/
theorem labelNumberize_does_not_split_example :
    (labelInitVocab false ["a,b"]).symbols = ["a", "b"] ∧
    labelTensorizerNumberize (labelInitVocab false ["a,b"]) "a,b" = .error "a,b" ∧
    labelNumberizeClaimed (labelInitVocab false ["a,b"]) "a,b" = .ok [0, 1] :=
  ⟨rfl, rfl, rfl⟩

/-- Claim C3 (amended): `LabelTensorizer.numberize` looks the entire label
column string up in the frozen vocabulary as a single categorical label
(splitting on the delimiter happens only during initialization); with
`allow_unknown = false`, the lookup succeeds exactly when the whole string
occurred as a split segment during initialization, and otherwise surfaces an
explicit unknown-label failure naming the string rather than silently
defaulting.  The hypothesis excludes the degenerate corpus that contains the
reserved UNK spelling as a label. -/
theorem labelNumberize_whole_string_lookup (rows : List String) (s : String)
    (hu : UNK ∉ labelSegments rows) :
    (labelTensorizerNumberize (labelInitVocab false rows) s = .error s ↔
      s ∉ labelSegments rows) ∧
    (s ∈ labelSegments rows →
      ∃ i, labelTensorizerNumberize (labelInitVocab false rows) s = .ok i) := by
  have hmemS : ∀ x, x ∈ (labelInitVocab false rows).symbols ↔ x ∈ labelSegments rows := by
    intro x
    rw [mem_symbols_labelInitVocab]
    simp
  have hUnkNone : vocabIndexOf (labelInitVocab false rows).symbols UNK = none := by
    rw [vocabIndexOf_eq_none_iff]
    intro hmem
    exact hu ((hmemS UNK).mp hmem)
  unfold labelTensorizerNumberize Vocab.lookupOne
  constructor
  · constructor
    · intro herr hseg
      have hsome := (vocabIndexOf_isSome_iff _ s).mpr ((hmemS s).mpr hseg)
      obtain ⟨i, hi⟩ := Option.isSome_iff_exists.mp hsome
      rw [hi] at herr
      exact Except.noConfusion herr
    · intro hnseg
      have hnone : vocabIndexOf (labelInitVocab false rows).symbols s = none := by
        rw [vocabIndexOf_eq_none_iff]
        intro hmem
        exact hnseg ((hmemS s).mp hmem)
      rw [hnone, hUnkNone]
  · intro hseg
    have hsome := (vocabIndexOf_isSome_iff _ s).mpr ((hmemS s).mpr hseg)
    obtain ⟨i, hi⟩ := Option.isSome_iff_exists.mp hsome
    exact ⟨i, by rw [hi]⟩

/-- Claim C3 witness: the whole-string lookup law at the concrete corpus
`["a,b"]` and query `"a"` (a seen segment). -/
theorem labelNumberize_whole_string_lookup_witness :
    UNK ∉ labelSegments ["a,b"] ∧
    ((labelTensorizerNumberize (labelInitVocab false ["a,b"]) "a" = .error "a" ↔
      "a" ∉ labelSegments ["a,b"]) ∧
     ("a" ∈ labelSegments ["a,b"] →
      ∃ i, labelTensorizerNumberize (labelInitVocab false ["a,b"]) "a" = .ok i)) :=
  ⟨by decide, labelNumberize_whole_string_lookup ["a,b"] "a" (by decide)⟩

/-- Claim C9 counterexample: the row `"[[1],[2]]"` parses to a list of
length 2 and passes the dimension check with `dim = 2`, yet `numberize`
still fails (the `float(n)` conversion of the nested list raises) — so with
`error_check` enabled, failure is not equivalent to a length/dimension
mismatch. -/
theorem floatListNumberize_nonnumeric_element_example :
    parseJson (normalizeFloatList "[[1],[2]]") =
      some (.jarr [.jarr [.jnum 1], .jarr [.jnum 2]]) ∧
    ([JsonVal.jarr [.jnum 1], JsonVal.jarr [.jnum 2]] : List JsonVal).length = 2 ∧
    (floatListNumberize true (some 2) "[[1],[2]]").isOk = false :=
  ⟨rfl, rfl, rfl⟩

/-- Claim C9 (amended): with `error_check` enabled and dimension `dim`, on
any row whose normalized text parses to a list `vs`, `numberize` fails with
the dimension-mismatch failure — which reports the expected dimension, the
actual length, and the parsed value — exactly when `len(vs) ≠ dim`; any such
mismatch makes `numberize` fail.  (Rows whose parsed elements are not
numbers can additionally fail during float conversion even when the length
matches.) -/
theorem floatListNumberize_dim_check_spec (s : String) (d : Nat) (vs : List JsonVal)
    (hp : parseJson (normalizeFloatList s) = some (.jarr vs)) :
    (floatListNumberize true (some d) s = .error (.dimMismatch (some d) vs.length vs) ↔
      vs.length ≠ d) ∧
    (vs.length ≠ d → (floatListNumberize true (some d) s).isOk = false) := by
  have hnum : floatListNumberize true (some d) s =
      if (true = true) ∧ (some d : Option Nat) ≠ some vs.length then
        .error (.dimMismatch (some d) vs.length vs)
      else floatAll vs := by
    show (match parseJson (normalizeFloatList s) with
      | none => Except.error (FLErr.parseFailure s (normalizeFloatList s))
      | some (JsonVal.jnum q) => Except.error (FLErr.notAFloatList (JsonVal.jnum q))
      | some (JsonVal.jarr vs) =>
        if true = true ∧ (some d : Option Nat) ≠ some vs.length then
          Except.error (FLErr.dimMismatch (some d) vs.length vs)
        else floatAll vs) = _
    rw [hp]
  by_cases hd : vs.length = d
  · rw [hnum, if_neg (by simp [hd])]
    constructor
    · constructor
      · intro h
        exact absurd h (floatAll_ne_dimMismatch vs (some d) vs.length vs)
      · intro h
        exact absurd hd h
    · intro h
      exact absurd hd h
  · have hcond : (true = true) ∧ (some d : Option Nat) ≠ some vs.length :=
      ⟨rfl, fun heq => hd (Option.some.inj heq).symm⟩
    rw [hnum, if_pos hcond]
    exact ⟨⟨fun _ => hd, fun _ => rfl⟩, fun _ => rfl⟩

/-- Claim C9 witness: the dimension-check law at the concrete row `"[1,2]"`
with `dim = 3`. -/
theorem floatListNumberize_dim_check_witness :
    parseJson (normalizeFloatList "[1,2]") = some (.jarr [.jnum 1, .jnum 2]) ∧
    ((floatListNumberize true (some 3) "[1,2]" =
        .error (.dimMismatch (some 3) [JsonVal.jnum 1, JsonVal.jnum 2].length
          [JsonVal.jnum 1, JsonVal.jnum 2]) ↔
      [JsonVal.jnum 1, JsonVal.jnum 2].length ≠ 3) ∧
     ([JsonVal.jnum 1, JsonVal.jnum 2].length ≠ 3 →
      (floatListNumberize true (some 3) "[1,2]").isOk = false)) :=
  ⟨rfl, floatListNumberize_dim_check_spec "[1,2]" 3 [JsonVal.jnum 1, JsonVal.jnum 2] rfl⟩

/-- Claim C4 (code bug): the input `"[ 1, 2.  ,3]"` normalizes to
`"[1,2.0,,3]"` — the `,? +` rewrite turns the spaces before the final comma
into a second comma — which fails JSON parsing, so `numberize` raises the
parse failure (echoing the original and normalized text) instead of
returning `[1.0, 2.0, 3.0]` as the claim requires. -/
theorem floatListNumberize_normalization_example_fails :
    normalizeFloatList "[ 1, 2.  ,3]" = "[1,2.0,,3]" ∧
    parseJson "[1,2.0,,3]" = none ∧
    floatListNumberize false none "[ 1, 2.  ,3]" =
      .error (.parseFailure "[ 1, 2.  ,3]" "[1,2.0,,3]") :=
  ⟨rfl, rfl, rfl⟩
